import Mathlib

/-!
Shallow embedding of the session-keys program
(`src/magic-baser-solana/patches/session-keys/src/lib.rs`): the
SessionToken record, PDA address binding, the two creation entry points,
revocation, and the `Session` validation capability, together with
theorems about them.

Modelling conventions:
* Public keys and program-derived addresses (PDAs) live in one address
  space `Pubkey`.  `Pubkey::find_program_address` is modelled as an
  injective constructor (the standard collision-resistance abstraction of
  the underlying hash); every call site in the source passes exactly the
  four seeds `["session_token", target_program, session_signer, authority]`,
  so the embedding specialises to that seed shape.
* `Clock::get()?.unix_timestamp` is an injected parameter `now : Int`;
  within one instruction every read observes the same value.
* Lamport balances are `Pubkey -> Int`; ledger account data is
  `Pubkey -> Option SessionToken`.  An instruction is a function
  `Ledger -> Except TxError Ledger`; returning `Except.error` models the
  host aborting the whole transaction with no state change (atomicity).
* Anchor account constraints (`Signer`, `executable`, `init` occupancy and
  rent deposit, `seeds`/`bump`, `has_one`, `close`) are embedded explicitly
  in each instruction model; the rent deposit amount is a host-chosen
  parameter `rent`.
-/

/-- The address space: ordinary (ed25519) public keys, and program-derived
addresses.  The `pda` constructor records the inputs of
`Pubkey::find_program_address` for the seed shape used throughout this
program — a namespace tag and three keys — plus the deriving program id.
Treating the constructor as injective models collision resistance of the
underlying SHA-256 derivation. -/
inductive Pubkey where
  | raw : Nat → Pubkey
  | pda : String → Pubkey → Pubkey → Pubkey → Pubkey → Pubkey
deriving DecidableEq

/-- Embeds `Pubkey::find_program_address(seeds, program_id)` for seed lists
of the shape `[tag.as_bytes(), k1.as_ref(), k2.as_ref(), k3.as_ref()]`
(the only shape this program uses).  The bump byte is irrelevant to the
claims and is not modelled. -/
def find_program_address (tag : String) (k1 k2 k3 : Pubkey) (program_id : Pubkey) : Pubkey :=
  Pubkey.pda tag k1 k2 k3 program_id

/-- The session-keys program's own id, `declare_id!("KeyspM2ssCJbqUhQ4k7sveSiY4WjnYsrXkC8oDbwde5")`,
modelled as an abstract atom of the address space. -/
def crate_id : Pubkey := Pubkey.raw 0

/-- `const LAMPORTS_PER_SOL: u64 = 1_000_000_000` (lib.rs line 4). -/
def LAMPORTS_PER_SOL : Int := 1000000000

/-- The `SessionToken` account data (lib.rs lines 244-251). -/
structure SessionToken where
  authority : Pubkey
  target_program : Pubkey
  session_signer : Pubkey
  valid_until : Int
deriving DecidableEq

/-- `SessionToken::SEED_PREFIX = "session_token"` (lib.rs line 255). -/
def SessionToken.seed_tag : String := "session_token"

/-- The PDA at which a session token for the triple (target_program,
session_signer, authority) lives: derived from the seeds
`["session_token", target_program, session_signer, authority]` under this
program's own id, exactly as in the `seeds = [...]` / `bump` constraints
of `CreateSessionToken` (lib.rs lines 60-68), `CreateSessionTokenWithPayer`
(lines 152-160) and `RevokeSessionToken` (lines 210-218); Anchor derives
these under the executing program's id, i.e. `crate::id()`. -/
def sessionTokenAddress (target_program session_signer authority : Pubkey) : Pubkey :=
  find_program_address SessionToken.seed_tag target_program session_signer authority crate_id

/-- `SessionToken::is_expired` (lib.rs lines 257-260): reads the clock and
returns the boolean `now < self.valid_until`.  The clock read is the
injected `now`; the source's `Result` wrapper only propagates clock-oracle
failure and is dropped. -/
def SessionToken.is_expired (self : SessionToken) (now : Int) : Bool :=
  decide (now < self.valid_until)

/-- An `anchor_lang::Account<SessionToken>`: the account's on-chain address
(`key()`) together with its deserialized data. -/
structure TokenAccount where
  key : Pubkey
  data : SessionToken
deriving DecidableEq

/-- `ValidityChecker` (lib.rs lines 236-241).  `session_signer` and
`authority` are kept as their keys (`key()` is all `validate` reads). -/
structure ValidityChecker where
  session_token : TokenAccount
  session_signer : Pubkey
  authority : Pubkey
  target_program : Pubkey

/-- `SessionError` (lib.rs lines 304-312). -/
inductive SessionError where
  | ValidityTooLong
  | InvalidToken
  | NoToken
deriving DecidableEq

/-- `SessionToken::validate` (lib.rs lines 263-282): re-derive the PDA from
the checker's accessors under `crate::id()`, require it to equal the token
account's actual key (`require_eq!` with `SessionError::InvalidToken`),
then return `self.is_expired()`. -/
def SessionToken.validate (self : SessionToken) (ctx : ValidityChecker) (now : Int) :
    Except SessionError Bool :=
  let target_program := ctx.target_program
  let session_signer := ctx.session_signer
  let authority := ctx.authority
  let pda := find_program_address SessionToken.seed_tag target_program session_signer authority
    crate_id
  if pda = ctx.session_token.key then
    Except.ok (self.is_expired now)
  else
    Except.error SessionError.InvalidToken

/-- A concrete context implementing the `Session` trait's four accessors
(lib.rs lines 285-289): the optional token account, the session signer's
key, the declared authority, and the target program. -/
structure SessionCtx where
  session_token : Option TokenAccount
  session_signer : Pubkey
  session_authority : Pubkey
  target_program : Pubkey

/-- The trait's provided method `Session::is_valid` (lib.rs lines 291-301):
fail with `NoToken` when the accessor returns `None`, otherwise build a
`ValidityChecker` from the accessors and call `SessionToken::validate`. -/
def Session.is_valid (self : SessionCtx) (now : Int) : Except SessionError Bool :=
  match self.session_token with
  | none => Except.error SessionError.NoToken
  | some session_token =>
      SessionToken.validate session_token.data
        { session_token := session_token
          session_signer := self.session_signer
          authority := self.session_authority
          target_program := self.target_program } now

/-- Transaction-level failures: the program's own `SessionError`s plus the
host/Anchor failures the modelled constraints can raise. -/
inductive TxError where
  | session : SessionError → TxError
  | accountAlreadyInUse
  | accountNotInitialized
  | constraintSeeds
  | constraintHasOne
  | constraintExecutable
  | missingRequiredSignature
deriving DecidableEq

/-- Ledger state: session-token records by address, lamport balances, and
which accounts are executable programs. -/
structure Ledger where
  records : Pubkey → Option SessionToken
  lamports : Pubkey → Int
  executable : Pubkey → Bool

/-- `system_program::transfer` / rent-deposit movement: debit `src`,
credit `dst`. -/
def transferLamports (st : Ledger) (src dst : Pubkey) (amount : Int) : Ledger :=
  { st with lamports := fun k =>
      st.lamports k - (if k = src then amount else 0) + (if k = dst then amount else 0) }

/-- `process_session_params` (lib.rs lines 51-55): `top_up` defaults to
`false`, `valid_until` defaults to `now + 60 * 60 * 1`. -/
def process_session_params (top_up : Option Bool) (valid_until : Option Int) (now : Int) :
    Bool × Int :=
  (top_up.getD false, valid_until.getD (now + 60 * 60 * 1))

/-- `create_session_token_internal` (lib.rs lines 86-126): `require!` that
`valid_until <= now + 60*60*24*7` else `SessionError::ValidityTooLong`;
`set_inner` the four-field record at the token account; if `top_up`,
transfer `lamports.unwrap_or(LAMPORTS_PER_SOL / 100)` from the payer to
the session signer's account. -/
def create_session_token_internal (st : Ledger) (token_addr : Pubkey)
    (authority target_program session_signer : Pubkey) (payer : Pubkey)
    (top_up : Bool) (valid_until : Int) (lamports : Option Int) (now : Int) :
    Except TxError Ledger :=
  if valid_until ≤ now + 60 * 60 * 24 * 7 then
    let tok : SessionToken :=
      { authority := authority, target_program := target_program,
        session_signer := session_signer, valid_until := valid_until }
    let st1 : Ledger := { st with records := fun k =>
      (if k = token_addr then some tok else st.records k) }
    if top_up then
      Except.ok (transferLamports st1 payer session_signer (lamports.getD (LAMPORTS_PER_SOL / 100)))
    else
      Except.ok st1
  else
    Except.error (TxError.session SessionError.ValidityTooLong)

/-- The `create_session` instruction (lib.rs lines 26-34) as one atomic
transaction: host signature verification for the two `Signer` accounts of
`CreateSessionToken` (`session_signer`, `authority`), the `executable`
check on `target_program`, the `init` constraint on the PDA
(`accountAlreadyInUse` if occupied, otherwise the payer — here the
authority — funds the new account's rent deposit), then
`process_session_params` and `create_session_token_handler`, which calls
`create_session_token_internal` with `payer = authority`. -/
def create_session (st : Ledger) (target_program session_signer authority : Pubkey)
    (top_up : Option Bool) (valid_until : Option Int) (lamports : Option Int)
    (signers : List Pubkey) (now : Int) (rent : Int) : Except TxError Ledger :=
  if session_signer ∈ signers ∧ authority ∈ signers then
    if st.executable target_program then
      let token_addr := sessionTokenAddress target_program session_signer authority
      if (st.records token_addr).isSome then
        Except.error TxError.accountAlreadyInUse
      else
        let st1 := transferLamports st authority token_addr rent
        let p := process_session_params top_up valid_until now
        create_session_token_internal st1 token_addr authority target_program session_signer
          authority p.1 p.2 lamports now
    else
      Except.error TxError.constraintExecutable
  else
    Except.error TxError.missingRequiredSignature

/-- The `create_session_with_payer` instruction (lib.rs lines 36-44):
identical to `create_session` except that `CreateSessionTokenWithPayer`
declares three `Signer`s (`session_signer`, `payer`, `authority`) and the
separate `payer` funds the rent deposit and the top-up transfer. -/
def create_session_with_payer (st : Ledger)
    (target_program session_signer payer authority : Pubkey)
    (top_up : Option Bool) (valid_until : Option Int) (lamports : Option Int)
    (signers : List Pubkey) (now : Int) (rent : Int) : Except TxError Ledger :=
  if session_signer ∈ signers ∧ payer ∈ signers ∧ authority ∈ signers then
    if st.executable target_program then
      let token_addr := sessionTokenAddress target_program session_signer authority
      if (st.records token_addr).isSome then
        Except.error TxError.accountAlreadyInUse
      else
        let st1 := transferLamports st payer token_addr rent
        let p := process_session_params top_up valid_until now
        create_session_token_internal st1 token_addr authority target_program session_signer
          payer p.1 p.2 lamports now
    else
      Except.error TxError.constraintExecutable
  else
    Except.error TxError.missingRequiredSignature

/-- The `revoke_session` instruction (lib.rs lines 46-48, 208-234).  The
handler body is empty; all behaviour comes from the `RevokeSessionToken`
constraints: the account at `session_token_addr` must deserialize to a
`SessionToken`; its address must match the PDA derived from the token's
OWN stored fields (`seeds`/`bump`, lines 212-218); `has_one = authority`
requires the passed `authority` account to equal the token's stored
`authority`; `close = authority` moves the account's whole lamport balance
(the storage deposit) to that authority and deletes the record.  The
`authority` account is a `SystemAccount`, not a `Signer`, and no account
in the struct is a `Signer`, so the transaction's signer set is never
consulted: `signers` is taken as a parameter only to state that fact. -/
def revoke_session (st : Ledger) (session_token_addr authority_acc : Pubkey)
    (signers : List Pubkey) : Except TxError Ledger :=
  match st.records session_token_addr with
  | none => Except.error TxError.accountNotInitialized
  | some tok =>
      if session_token_addr =
          sessionTokenAddress tok.target_program tok.session_signer tok.authority then
        if tok.authority = authority_acc then
          Except.ok
            { st with
              records := fun k => if k = session_token_addr then none else st.records k,
              lamports := fun k =>
                st.lamports k - (if k = session_token_addr then st.lamports session_token_addr else 0)
                  + (if k = authority_acc then st.lamports session_token_addr else 0) }
        else
          Except.error TxError.constraintHasOne
      else
        Except.error TxError.constraintSeeds

/-! Helper lemmas. -/

/-- Successful run of `create_session_token_internal`: when the requested
validity passes the week bound, it returns a state whose records hold the
exact four-field token at `addr` and whose balances reflect the optional
top-up transfer from the payer to the session signer. -/
theorem create_session_token_internal_ok (st : Ledger) (addr au t s payer : Pubkey)
    (topb : Bool) (vu : Int) (lam : Option Int) (now : Int)
    (hvu : vu ≤ now + 60 * 60 * 24 * 7) :
    ∃ st', create_session_token_internal st addr au t s payer topb vu lam now = Except.ok st'
      ∧ (∀ k, st'.records k =
          (if k = addr then
            some { authority := au, target_program := t, session_signer := s, valid_until := vu }
          else st.records k))
      ∧ (∀ k, st'.lamports k = st.lamports k
          - (if topb = true ∧ k = payer then lam.getD (LAMPORTS_PER_SOL / 100) else 0)
          + (if topb = true ∧ k = s then lam.getD (LAMPORTS_PER_SOL / 100) else 0)) := by
  unfold create_session_token_internal
  rw [if_pos hvu]
  cases topb
  · refine ⟨_, rfl, fun k => rfl, fun k => ?_⟩
    simp
  · refine ⟨_, rfl, fun k => rfl, fun k => ?_⟩
    simp [transferLamports]

/-! Theorems for the claims. -/

/-- C1: for every validation context in which the session token accessor
returns a token and the re-derived storage address equals the token
account's actual address, `is_valid` returns the boolean
`now < valid_until` (the source's `is_expired` comparison) as the overall
validity result, with `now` taken from the host clock oracle. -/
theorem is_valid_returns_expiry_comparison (ctx : SessionCtx) (acc : TokenAccount) (now : Int)
    (htok : ctx.session_token = some acc)
    (haddr : find_program_address SessionToken.seed_tag ctx.target_program ctx.session_signer
        ctx.session_authority crate_id = acc.key) :
    Session.is_valid ctx now = Except.ok (decide (now < acc.data.valid_until)) := by
  simp [Session.is_valid, htok, SessionToken.validate, haddr, SessionToken.is_expired]

theorem is_valid_returns_expiry_comparison_witness :
    Session.is_valid
      { session_token := some
          { key := sessionTokenAddress (Pubkey.raw 1) (Pubkey.raw 2) (Pubkey.raw 3),
            data := { authority := Pubkey.raw 3, target_program := Pubkey.raw 1,
                      session_signer := Pubkey.raw 2, valid_until := 100 } },
        session_signer := Pubkey.raw 2, session_authority := Pubkey.raw 3,
        target_program := Pubkey.raw 1 } 7
      = Except.ok (decide ((7 : Int) < 100)) :=
  is_valid_returns_expiry_comparison _ _ 7 rfl rfl

/-- C5: for every context implementing the validation capability whose
session token accessor returns nothing, `is_valid` fails with `NoToken`,
irrespective of the other accessors and of the clock (no address or
expiry check is performed). -/
theorem is_valid_no_token (ctx : SessionCtx) (now : Int)
    (h : ctx.session_token = none) :
    Session.is_valid ctx now = Except.error SessionError.NoToken := by
  simp [Session.is_valid, h]

theorem is_valid_no_token_witness :
    Session.is_valid
      { session_token := none, session_signer := Pubkey.raw 2,
        session_authority := Pubkey.raw 3, target_program := Pubkey.raw 1 } 0
      = Except.error SessionError.NoToken :=
  is_valid_no_token _ 0 rfl

/-- C3: for every validation context with a token present, `is_valid`
fails with `InvalidToken` if and only if the storage address re-derived
from the accessors' (target_program, session_signer, authority) differs
from the address at which the token account actually resides. -/
theorem is_valid_invalid_token_iff (ctx : SessionCtx) (acc : TokenAccount) (now : Int)
    (htok : ctx.session_token = some acc) :
    (Session.is_valid ctx now = Except.error SessionError.InvalidToken ↔
      find_program_address SessionToken.seed_tag ctx.target_program ctx.session_signer
        ctx.session_authority crate_id ≠ acc.key) := by
  by_cases h : find_program_address SessionToken.seed_tag ctx.target_program ctx.session_signer
      ctx.session_authority crate_id = acc.key
  · simp [Session.is_valid, htok, SessionToken.validate, h]
  · simp [Session.is_valid, htok, SessionToken.validate, h]

theorem is_valid_invalid_token_iff_witness :
    (Session.is_valid
      { session_token := some
          { key := Pubkey.raw 9,
            data := { authority := Pubkey.raw 3, target_program := Pubkey.raw 1,
                      session_signer := Pubkey.raw 2, valid_until := 100 } },
        session_signer := Pubkey.raw 2, session_authority := Pubkey.raw 3,
        target_program := Pubkey.raw 1 } 0
      = Except.error SessionError.InvalidToken ↔
      find_program_address SessionToken.seed_tag (Pubkey.raw 1) (Pubkey.raw 2) (Pubkey.raw 3)
        crate_id ≠ Pubkey.raw 9) :=
  is_valid_invalid_token_iff _ _ 0 rfl

/-- C9: validation never reads the token's stored key fields: the result
of `is_valid` is unchanged when the stored authority, target_program and
session_signer are replaced by arbitrary other values, holding fixed the
token account's address, its `valid_until`, the accessors' claimed triple
and the clock. -/
theorem is_valid_ignores_stored_key_fields
    (key : Pubkey) (a1 t1 s1 a2 t2 s2 : Pubkey) (vu : Int)
    (signer auth target : Pubkey) (now : Int) :
    Session.is_valid
      { session_token := some
          { key := key,
            data := { authority := a1, target_program := t1,
                      session_signer := s1, valid_until := vu } },
        session_signer := signer, session_authority := auth, target_program := target } now
    = Session.is_valid
      { session_token := some
          { key := key,
            data := { authority := a2, target_program := t2,
                      session_signer := s2, valid_until := vu } },
        session_signer := signer, session_authority := auth, target_program := target } now := rfl

/-- C2 counterexample: the claim says the program id parameter of the
address derivation equals `target_program`; at the concrete triple
(target_program, session_signer, authority) = (raw 1, raw 2, raw 3) the
address the code derives (under `crate::id()`) is NOT the derivation
under the target program's addressing domain. -/
theorem sessionTokenAddress_not_target_program_domain :
    sessionTokenAddress (Pubkey.raw 1) (Pubkey.raw 2) (Pubkey.raw 3)
      ≠ find_program_address SessionToken.seed_tag (Pubkey.raw 1) (Pubkey.raw 2) (Pubkey.raw 3)
          (Pubkey.raw 1) := by
  decide

/-- C2 (amended): the storage address of the session token — the one the
creation constraints use and the one `validate` re-derives — is the hash
of the namespace tag "session_token" with the three keys under the
SESSION-KEYS PROGRAM'S OWN addressing domain (`crate::id()`), the target
program entering only as a seed: validation accepts a token account's
address exactly when it equals that derivation. -/
theorem sessionTokenAddress_under_crate_id (self : SessionToken) (ctx : ValidityChecker)
    (now : Int) :
    sessionTokenAddress ctx.target_program ctx.session_signer ctx.authority
        = find_program_address SessionToken.seed_tag ctx.target_program ctx.session_signer
            ctx.authority crate_id
      ∧ (SessionToken.validate self ctx now ≠ Except.error SessionError.InvalidToken ↔
          ctx.session_token.key
            = sessionTokenAddress ctx.target_program ctx.session_signer ctx.authority) := by
  refine ⟨rfl, ?_⟩
  by_cases h : find_program_address SessionToken.seed_tag ctx.target_program ctx.session_signer
      ctx.authority crate_id = ctx.session_token.key
  · simp [SessionToken.validate, sessionTokenAddress, h, Eq.comm]
  · simp only [SessionToken.validate, sessionTokenAddress]
    rw [if_neg h]
    simp only [ne_eq, not_true_eq_false, false_iff]
    exact fun hk => h hk.symm

/-- C4: for every requested `valid_until` strictly greater than
`now + 7 days` (604800 seconds), both creation entry points fail with
`ValidityTooLong`; the failed transaction leaves the ledger untouched
(the `Except.error` result carries no new state), so no token record
exists at the derived address. -/
theorem create_rejects_validity_too_long (st : Ledger) (t s p a : Pubkey)
    (top_up : Option Bool) (vu : Int) (lam : Option Int)
    (signers : List Pubkey) (now rent : Int)
    (hs : s ∈ signers) (hp : p ∈ signers) (ha : a ∈ signers)
    (hexec : st.executable t = true)
    (hfree : st.records (sessionTokenAddress t s a) = none)
    (hvu : now + 604800 < vu) :
    create_session st t s a top_up (some vu) lam signers now rent
        = Except.error (TxError.session SessionError.ValidityTooLong)
      ∧ create_session_with_payer st t s p a top_up (some vu) lam signers now rent
        = Except.error (TxError.session SessionError.ValidityTooLong)
      ∧ st.records (sessionTokenAddress t s a) = none := by
  have hng : ¬ vu ≤ now + 60 * 60 * 24 * 7 := by omega
  refine ⟨?_, ?_, hfree⟩
  · unfold create_session
    rw [if_pos ⟨hs, ha⟩, if_pos hexec]
    simp only [hfree, Option.isSome_none, Bool.false_eq_true, if_false,
      process_session_params, Option.getD_some]
    unfold create_session_token_internal
    rw [if_neg hng]
  · unfold create_session_with_payer
    rw [if_pos ⟨hs, hp, ha⟩, if_pos hexec]
    simp only [hfree, Option.isSome_none, Bool.false_eq_true, if_false,
      process_session_params, Option.getD_some]
    unfold create_session_token_internal
    rw [if_neg hng]

theorem create_rejects_validity_too_long_witness :
    create_session
        { records := fun _ => none, lamports := fun _ => 100, executable := fun _ => true }
        (Pubkey.raw 1) (Pubkey.raw 2) (Pubkey.raw 3) none (some 604801) none
        [Pubkey.raw 2, Pubkey.raw 3, Pubkey.raw 4] 0 5
        = Except.error (TxError.session SessionError.ValidityTooLong)
      ∧ create_session_with_payer
        { records := fun _ => none, lamports := fun _ => 100, executable := fun _ => true }
        (Pubkey.raw 1) (Pubkey.raw 2) (Pubkey.raw 4) (Pubkey.raw 3) none (some 604801) none
        [Pubkey.raw 2, Pubkey.raw 3, Pubkey.raw 4] 0 5
        = Except.error (TxError.session SessionError.ValidityTooLong)
      ∧ ({ records := fun _ => none, lamports := fun _ => 100,
           executable := fun _ => true } : Ledger).records
          (sessionTokenAddress (Pubkey.raw 1) (Pubkey.raw 2) (Pubkey.raw 3)) = none :=
  create_rejects_validity_too_long _ _ _ _ _ none 604801 none _ 0 5
    (by decide) (by decide) (by decide) rfl rfl (by decide)

/-- C6: for every creation call with `valid_until <= now + 7 days` and no
pre-existing record at the derived address, both entry points succeed and
the stored record's four fields exactly equal the supplied authority,
target_program, session_signer and valid_until. -/
theorem create_stores_exact_fields (st : Ledger) (t s p a : Pubkey)
    (top_up : Option Bool) (vu : Int) (lam : Option Int)
    (signers : List Pubkey) (now rent : Int)
    (hs : s ∈ signers) (hp : p ∈ signers) (ha : a ∈ signers)
    (hexec : st.executable t = true)
    (hfree : st.records (sessionTokenAddress t s a) = none)
    (hvu : vu ≤ now + 604800) :
    (∃ st', create_session st t s a top_up (some vu) lam signers now rent = Except.ok st'
      ∧ st'.records (sessionTokenAddress t s a)
          = some { authority := a, target_program := t, session_signer := s,
                   valid_until := vu })
    ∧ (∃ st', create_session_with_payer st t s p a top_up (some vu) lam signers now rent
          = Except.ok st'
      ∧ st'.records (sessionTokenAddress t s a)
          = some { authority := a, target_program := t, session_signer := s,
                   valid_until := vu }) := by
  have hvu' : vu ≤ now + 60 * 60 * 24 * 7 := by omega
  constructor
  · obtain ⟨st', hok, hrec, -⟩ := create_session_token_internal_ok
      (transferLamports st a (sessionTokenAddress t s a) rent) (sessionTokenAddress t s a)
      a t s a (top_up.getD false) vu lam now hvu'
    refine ⟨st', ?_, ?_⟩
    · unfold create_session
      rw [if_pos ⟨hs, ha⟩, if_pos hexec]
      simp only [hfree, Option.isSome_none, Bool.false_eq_true, if_false,
        process_session_params, Option.getD_some]
      exact hok
    · rw [hrec]
      simp
  · obtain ⟨st', hok, hrec, -⟩ := create_session_token_internal_ok
      (transferLamports st p (sessionTokenAddress t s a) rent) (sessionTokenAddress t s a)
      a t s p (top_up.getD false) vu lam now hvu'
    refine ⟨st', ?_, ?_⟩
    · unfold create_session_with_payer
      rw [if_pos ⟨hs, hp, ha⟩, if_pos hexec]
      simp only [hfree, Option.isSome_none, Bool.false_eq_true, if_false,
        process_session_params, Option.getD_some]
      exact hok
    · rw [hrec]
      simp

theorem create_stores_exact_fields_witness :
    (∃ st', create_session
        { records := fun _ => none, lamports := fun _ => 100, executable := fun _ => true }
        (Pubkey.raw 1) (Pubkey.raw 2) (Pubkey.raw 3) none (some 50) none
        [Pubkey.raw 2, Pubkey.raw 3, Pubkey.raw 4] 0 5 = Except.ok st'
      ∧ st'.records (sessionTokenAddress (Pubkey.raw 1) (Pubkey.raw 2) (Pubkey.raw 3))
          = some { authority := Pubkey.raw 3, target_program := Pubkey.raw 1,
                   session_signer := Pubkey.raw 2, valid_until := 50 })
    ∧ (∃ st', create_session_with_payer
        { records := fun _ => none, lamports := fun _ => 100, executable := fun _ => true }
        (Pubkey.raw 1) (Pubkey.raw 2) (Pubkey.raw 4) (Pubkey.raw 3) none (some 50) none
        [Pubkey.raw 2, Pubkey.raw 3, Pubkey.raw 4] 0 5 = Except.ok st'
      ∧ st'.records (sessionTokenAddress (Pubkey.raw 1) (Pubkey.raw 2) (Pubkey.raw 3))
          = some { authority := Pubkey.raw 3, target_program := Pubkey.raw 1,
                   session_signer := Pubkey.raw 2, valid_until := 50 }) :=
  create_stores_exact_fields _ _ _ _ _ none 50 none _ 0 5
    (by decide) (by decide) (by decide) rfl rfl (by decide)

/-- C10: with the other account constraints satisfied, creation raises
`ValidityTooLong` if and only if the explicitly supplied
`valid_until > now + 7 days`, and there is no lower bound: any
`valid_until <= now + 604800`, including values at or before `now` (even
negative timestamps), is accepted and stored unchanged, yielding a token
whose expiry comparison `is_expired` is already false at issuance time
when `valid_until <= now`. -/
theorem create_no_lower_bound (st : Ledger) (t s a : Pubkey)
    (top_up : Option Bool) (vu : Int) (lam : Option Int)
    (signers : List Pubkey) (now rent : Int)
    (hs : s ∈ signers) (ha : a ∈ signers)
    (hexec : st.executable t = true)
    (hfree : st.records (sessionTokenAddress t s a) = none) :
    (create_session st t s a top_up (some vu) lam signers now rent
        = Except.error (TxError.session SessionError.ValidityTooLong) ↔ now + 604800 < vu)
    ∧ (vu ≤ now + 604800 →
        ∃ st' tok, create_session st t s a top_up (some vu) lam signers now rent = Except.ok st'
          ∧ st'.records (sessionTokenAddress t s a) = some tok
          ∧ tok.valid_until = vu
          ∧ (vu ≤ now → tok.is_expired now = false)) := by
  have hsucc : vu ≤ now + 604800 →
      ∃ st' tok, create_session st t s a top_up (some vu) lam signers now rent = Except.ok st'
        ∧ st'.records (sessionTokenAddress t s a) = some tok
        ∧ tok.valid_until = vu
        ∧ (vu ≤ now → tok.is_expired now = false) := by
    intro hle
    obtain ⟨st', hok, hrec, -⟩ := create_session_token_internal_ok
      (transferLamports st a (sessionTokenAddress t s a) rent) (sessionTokenAddress t s a)
      a t s a (top_up.getD false) vu lam now (by omega)
    refine ⟨st', { authority := a, target_program := t, session_signer := s, valid_until := vu },
      ?_, ?_, rfl, ?_⟩
    · unfold create_session
      rw [if_pos ⟨hs, ha⟩, if_pos hexec]
      simp only [hfree, Option.isSome_none, Bool.false_eq_true, if_false,
        process_session_params, Option.getD_some]
      exact hok
    · rw [hrec]
      simp
    · intro hpast
      simp [SessionToken.is_expired]
      omega
  constructor
  · constructor
    · intro herr
      by_contra hle
      obtain ⟨st', tok, hok, -⟩ := hsucc (by omega)
      rw [herr] at hok
      exact Except.noConfusion hok
    · intro hgt
      have hng : ¬ vu ≤ now + 60 * 60 * 24 * 7 := by omega
      unfold create_session
      rw [if_pos ⟨hs, ha⟩, if_pos hexec]
      simp only [hfree, Option.isSome_none, Bool.false_eq_true, if_false,
        process_session_params, Option.getD_some]
      unfold create_session_token_internal
      rw [if_neg hng]
  · exact hsucc

theorem create_no_lower_bound_witness :
    (create_session
        { records := fun _ => none, lamports := fun _ => 100, executable := fun _ => true }
        (Pubkey.raw 1) (Pubkey.raw 2) (Pubkey.raw 3) none (some (-7)) none
        [Pubkey.raw 2, Pubkey.raw 3] 0 5
        = Except.error (TxError.session SessionError.ValidityTooLong) ↔ (0 : Int) + 604800 < -7)
    ∧ ((-7 : Int) ≤ 0 + 604800 →
        ∃ st' tok, create_session
            { records := fun _ => none, lamports := fun _ => 100, executable := fun _ => true }
            (Pubkey.raw 1) (Pubkey.raw 2) (Pubkey.raw 3) none (some (-7)) none
            [Pubkey.raw 2, Pubkey.raw 3] 0 5 = Except.ok st'
          ∧ st'.records (sessionTokenAddress (Pubkey.raw 1) (Pubkey.raw 2) (Pubkey.raw 3))
              = some tok
          ∧ tok.valid_until = -7
          ∧ ((-7 : Int) ≤ 0 → tok.is_expired 0 = false)) :=
  create_no_lower_bound _ _ _ _ none (-7) none _ 0 5
    (by decide) (by decide) rfl rfl

/-- C8: self-funded creation at time `now` with no explicit `valid_until`,
`top_up = some true` and no explicit amount stores a record with
`valid_until = now + 3600`, credits the session signer with exactly
`LAMPORTS_PER_SOL / 100 = 10_000_000` lamports, and debits them (plus the
rent deposit) from the payer, which for `create_session` is the
authority. -/
theorem create_default_topup_scenario (st : Ledger) (t s a : Pubkey)
    (signers : List Pubkey) (now rent : Int)
    (hs : s ∈ signers) (ha : a ∈ signers)
    (hexec : st.executable t = true)
    (hfree : st.records (sessionTokenAddress t s a) = none)
    (hsa : s ≠ a) (hspda : s ≠ sessionTokenAddress t s a)
    (hapda : a ≠ sessionTokenAddress t s a) :
    ∃ st', create_session st t s a (some true) none none signers now rent = Except.ok st'
      ∧ st'.records (sessionTokenAddress t s a)
          = some { authority := a, target_program := t, session_signer := s,
                   valid_until := now + 3600 }
      ∧ st'.lamports s = st.lamports s + 10000000
      ∧ st'.lamports a = st.lamports a - rent - 10000000 := by
  obtain ⟨st', hok, hrec, hlam⟩ := create_session_token_internal_ok
    (transferLamports st a (sessionTokenAddress t s a) rent) (sessionTokenAddress t s a)
    a t s a true (now + 60 * 60 * 1) none now (by omega)
  refine ⟨st', ?_, ?_, ?_, ?_⟩
  · unfold create_session
    rw [if_pos ⟨hs, ha⟩, if_pos hexec]
    simp only [hfree, Option.isSome_none, Bool.false_eq_true, if_false,
      process_session_params, Option.getD_some, Option.getD_none]
    exact hok
  · rw [hrec]
    simp only [if_pos rfl, Option.some_inj]
    congr 1
  · rw [hlam s]
    have hamt : LAMPORTS_PER_SOL / 100 = 10000000 := by norm_num [LAMPORTS_PER_SOL]
    simp only [transferLamports, Option.getD_none, hamt]
    simp [hsa, hspda]
  · rw [hlam a]
    have has : ¬ a = s := fun h => hsa h.symm
    have hamt : LAMPORTS_PER_SOL / 100 = 10000000 := by norm_num [LAMPORTS_PER_SOL]
    simp only [transferLamports, Option.getD_none, hamt]
    simp [has, hapda]

theorem create_default_topup_scenario_witness :
    ∃ st', create_session
        { records := fun _ => none, lamports := fun _ => 100, executable := fun _ => true }
        (Pubkey.raw 1) (Pubkey.raw 2) (Pubkey.raw 3) (some true) none none
        [Pubkey.raw 2, Pubkey.raw 3] 1000 5 = Except.ok st'
      ∧ st'.records (sessionTokenAddress (Pubkey.raw 1) (Pubkey.raw 2) (Pubkey.raw 3))
          = some { authority := Pubkey.raw 3, target_program := Pubkey.raw 1,
                   session_signer := Pubkey.raw 2, valid_until := 1000 + 3600 }
      ∧ st'.lamports (Pubkey.raw 2) = 100 + 10000000
      ∧ st'.lamports (Pubkey.raw 3) = 100 - 5 - 10000000 :=
  create_default_topup_scenario _ _ _ _ _ 1000 5
    (by decide) (by decide) rfl rfl (by decide) (by decide) (by decide)

/-- C7: for every existing session token (stored at its canonical derived
address), `revoke_session` destroys the record — nothing remains at its
address — and moves the account's whole lamport balance (the storage
deposit) exactly to the `authority` recorded in the token being
destroyed; the result is independent of the transaction's signer set (no
signature is required from the caller or from any identity recorded in
the token), and passing any account other than the recorded authority is
rejected by `has_one`, so the deposit cannot be redirected to the
caller. -/
theorem revoke_closes_and_refunds_authority (st : Ledger) (tok : SessionToken) (addr : Pubkey)
    (signers : List Pubkey)
    (h1 : st.records addr = some tok)
    (h2 : addr = sessionTokenAddress tok.target_program tok.session_signer tok.authority)
    (h3 : tok.authority ≠ addr) :
    ∃ st', revoke_session st addr tok.authority signers = Except.ok st'
      ∧ st'.records addr = none
      ∧ st'.lamports tok.authority = st.lamports tok.authority + st.lamports addr
      ∧ st'.lamports addr = 0
      ∧ (∀ s2 : List Pubkey, revoke_session st addr tok.authority s2
            = revoke_session st addr tok.authority signers)
      ∧ (∀ other : Pubkey, other ≠ tok.authority →
          revoke_session st addr other signers = Except.error TxError.constraintHasOne) := by
  have hne : ¬ addr = tok.authority := fun h => h3 h.symm
  refine ⟨{ st with
      records := fun k => (if k = addr then none else st.records k),
      lamports := fun k =>
        st.lamports k - (if k = addr then st.lamports addr else 0)
          + (if k = tok.authority then st.lamports addr else 0) }, ?_, ?_, ?_, ?_, ?_, ?_⟩
  · unfold revoke_session
    simp only [h1]
    rw [if_pos h2]
    simp
  · simp
  · simp [h3]
  · simp [hne]
  · intro s2
    rfl
  · intro other hother
    have hother' : ¬ tok.authority = other := fun h => hother h.symm
    unfold revoke_session
    simp only [h1]
    rw [if_pos h2, if_neg hother']

theorem revoke_closes_and_refunds_authority_witness :
    ∃ st', revoke_session
        { records := fun k =>
            (if k = sessionTokenAddress (Pubkey.raw 1) (Pubkey.raw 2) (Pubkey.raw 3) then
              some { authority := Pubkey.raw 3, target_program := Pubkey.raw 1,
                     session_signer := Pubkey.raw 2, valid_until := 50 }
            else none),
          lamports := fun _ => 100, executable := fun _ => true }
        (sessionTokenAddress (Pubkey.raw 1) (Pubkey.raw 2) (Pubkey.raw 3)) (Pubkey.raw 3) []
        = Except.ok st'
      ∧ st'.records (sessionTokenAddress (Pubkey.raw 1) (Pubkey.raw 2) (Pubkey.raw 3)) = none
      ∧ st'.lamports (Pubkey.raw 3) = 100 + 100
      ∧ st'.lamports (sessionTokenAddress (Pubkey.raw 1) (Pubkey.raw 2) (Pubkey.raw 3)) = 0
      ∧ (∀ s2 : List Pubkey, revoke_session
            { records := fun k =>
                (if k = sessionTokenAddress (Pubkey.raw 1) (Pubkey.raw 2) (Pubkey.raw 3) then
                  some { authority := Pubkey.raw 3, target_program := Pubkey.raw 1,
                         session_signer := Pubkey.raw 2, valid_until := 50 }
                else none),
              lamports := fun _ => 100, executable := fun _ => true }
            (sessionTokenAddress (Pubkey.raw 1) (Pubkey.raw 2) (Pubkey.raw 3)) (Pubkey.raw 3) s2
          = revoke_session
            { records := fun k =>
                (if k = sessionTokenAddress (Pubkey.raw 1) (Pubkey.raw 2) (Pubkey.raw 3) then
                  some { authority := Pubkey.raw 3, target_program := Pubkey.raw 1,
                         session_signer := Pubkey.raw 2, valid_until := 50 }
                else none),
              lamports := fun _ => 100, executable := fun _ => true }
            (sessionTokenAddress (Pubkey.raw 1) (Pubkey.raw 2) (Pubkey.raw 3)) (Pubkey.raw 3) [])
      ∧ (∀ other : Pubkey, other ≠ Pubkey.raw 3 →
          revoke_session
            { records := fun k =>
                (if k = sessionTokenAddress (Pubkey.raw 1) (Pubkey.raw 2) (Pubkey.raw 3) then
                  some { authority := Pubkey.raw 3, target_program := Pubkey.raw 1,
                         session_signer := Pubkey.raw 2, valid_until := 50 }
                else none),
              lamports := fun _ => 100, executable := fun _ => true }
            (sessionTokenAddress (Pubkey.raw 1) (Pubkey.raw 2) (Pubkey.raw 3)) other []
          = Except.error TxError.constraintHasOne) :=
  revoke_closes_and_refunds_authority _
    { authority := Pubkey.raw 3, target_program := Pubkey.raw 1,
      session_signer := Pubkey.raw 2, valid_until := 50 }
    (sessionTokenAddress (Pubkey.raw 1) (Pubkey.raw 2) (Pubkey.raw 3)) []
    (by simp) rfl (by decide)
